import Mathlib

/-!
Verification development for the voice-interview turn-taking controller:
the Turn Orchestrator (src/components/VoiceInterview.tsx), the Speech Input
Capturer (src/hooks/useVoiceRecorder.ts) and the Speech Output Driver
(src/hooks/useTextToSpeech.ts).

Stateful React code is embedded as explicit state passing: each handler
becomes a function from the pre-state (the values of the refs and state
hooks it reads) to the post-state plus a list of emitted external actions
(recorder calls, network uploads, scheduled timeouts).  Asynchronous
results (the STT fetch response, the answer-submission promise) are
parameters of the handler, standing for the value the awaited promise
resolves or rejects with.
-/

/- ======================================================================
   Turn Orchestrator (src/components/VoiceInterview.tsx)
   ====================================================================== -/

/-- The InterviewPhase union type of VoiceInterview.tsx. -/
inductive Phase
  | INITIALIZING_TTS
  | READY_TO_START
  | AI_SPEAKING
  | WAITING_TO_RECORD
  | RECORDING
  | PROCESSING_STT
  | PROCESSING_ANSWER
  | IDLE
deriving DecidableEq, Repr

/-- The orchestrator state: the React state hooks and refs of
VoiceInterview.tsx that the turn-taking handlers read and write.
`silenceTimer` and `countdownTimer` record whether the corresponding
timer handle (silenceTimerRef / countdownTimerRef) is currently set. -/
structure OrchState where
  phase : Phase
  transcript : String
  error : Option String
  silenceCountdown : Option Nat
  showSkipWarning : Bool
  hasSpokenCurrentQuestion : Bool
  hasUserSpokenThisRecording : Bool
  recordingStartTime : Option Nat
  silenceTimer : Bool
  countdownTimer : Bool
  isAutoSkipping : Bool
  currentQuestionId : Option Nat
  isCountdownActive : Bool
  isManuallySkipping : Bool
deriving DecidableEq, Repr

/-- External actions the orchestrator handlers emit: calls into the
recorder, network requests, and scheduled timeouts (delay in ms). -/
inductive OrchAction
  | uploadSTT (blobSize : Nat)
  | submitAnswer (text : String)
  | stopRecorder
  | startRecorder
  | scheduleStartListening (delayMs : Nat)
  | scheduleSkip (delayMs : Nat)
deriving DecidableEq, Repr

/-- The JSON body returned by the STT endpoint, as read by
handleRecordingComplete: result.success, result.transcript,
result.detail, result.error.  `none` models an absent field;
`some ""` models a present empty string (falsy in JS). -/
structure STTResult where
  success : Bool
  transcript : Option String
  detail : Option String
  errMsg : Option String
deriving DecidableEq, Repr

/-- Outcome of the STT fetch: `ok` is a 2xx response with parsed JSON;
`requestFailed msg` is any throw before the JSON is used (a non-ok
response, which the code turns into a thrown `Server error` message, or
a network-level rejection), with `msg` the thrown error message. -/
inductive STTOutcome
  | ok (result : STTResult)
  | requestFailed (msg : String)
deriving DecidableEq, Repr

/-- JS `s.trim()`: strip leading and trailing whitespace. -/
def jsTrim (s : String) : String :=
  String.mk (((s.toList.dropWhile Char.isWhitespace).reverse.dropWhile
    Char.isWhitespace).reverse)

/-- JS truthiness of an optional string field: present and non-empty. -/
def jsTruthy : Option String → Bool
  | none => false
  | some s => !(s == "")

/-- JS `a || dflt` for an optional string field `a`. -/
def jsOrStr (o : Option String) (dflt : String) : String :=
  match o with
  | some s => if s == "" then dflt else s
  | none => dflt

/-- clearSilenceTimers of VoiceInterview.tsx: cancels both watchdog
timers, resets the countdown-active flag and clears the countdown UI. -/
def clearSilenceTimers (s : OrchState) : OrchState :=
  { s with
    silenceTimer := false
    countdownTimer := false
    isCountdownActive := false
    silenceCountdown := none
    showSkipWarning := false }

/-- startListening of VoiceInterview.tsx.  `now` is Date.now() at the
call.  Emits the recorder.startRecording() call as an action. -/
def startListening (s : OrchState) (now : Nat) : OrchState × List OrchAction :=
  let s1 := { s with
    isAutoSkipping := false
    hasUserSpokenThisRecording := false
    recordingStartTime := some now }
  let s2 := clearSilenceTimers s1
  ({ s2 with phase := Phase.RECORDING, transcript := "" }, [OrchAction.startRecorder])

/-- handleAutoSkip of VoiceInterview.tsx: guarded by the auto-skipping
idempotency flag; sets the flag, clears the watchdog timers, stops the
recorder, and schedules the onSkip call after a 200 ms delay. -/
def handleAutoSkip (s : OrchState) : OrchState × List OrchAction :=
  if s.isAutoSkipping then (s, [])
  else
    let s1 := clearSilenceTimers { s with isAutoSkipping := true }
    (s1, [OrchAction.stopRecorder, OrchAction.scheduleSkip 200])

/-- The countdown-interval callback of startSkipCountdown at the tick
where the count reaches zero: it clears the interval handle and the
countdown-active flag, then invokes handleAutoSkip. -/
def countdownZeroTick (s : OrchState) : OrchState × List OrchAction :=
  handleAutoSkip { s with countdownTimer := false, isCountdownActive := false }

/-- The question-change useEffect of VoiceInterview.tsx.  `newQ` is
session.current_question?.id (`none` when there is no current question,
in which case the effect body does nothing).  When the id differs from
currentQuestionIdRef, all skip-related flags are reset and pending
timers cancelled; afterwards (for any current question) the spoken flag,
transcript and error are cleared. -/
def questionChangeEffect (s : OrchState) (newQ : Option Nat) : OrchState :=
  match newQ with
  | none => s
  | some qid =>
    let s1 :=
      if s.currentQuestionId = some qid then s
      else
        { s with
          currentQuestionId := some qid
          isAutoSkipping := false
          isManuallySkipping := false
          isCountdownActive := false
          hasUserSpokenThisRecording := false
          recordingStartTime := none
          silenceTimer := false
          countdownTimer := false
          silenceCountdown := none
          showSkipWarning := false }
    { s1 with hasSpokenCurrentQuestion := false, transcript := "", error := none }

/-- handleRecordingComplete of VoiceInterview.tsx.  `blobSize` is the
completed audio blob size in bytes; `outcome` the result of the STT
fetch (only consulted when the upload actually happens); `submitErr`
models the awaited onAnswerSubmit promise (`some m` = rejection whose
message `m` lands in the shared catch block). -/
def handleRecordingComplete (s : OrchState) (blobSize : Nat)
    (outcome : STTOutcome) (submitErr : Option String) :
    OrchState × List OrchAction :=
  if s.isAutoSkipping || s.isManuallySkipping then (s, [])
  else
    let s1 := { s with phase := Phase.PROCESSING_STT, error := none }
    if blobSize < 500 then
      let s2 :=
        if !s.isAutoSkipping && !s.isManuallySkipping then
          { s1 with error := some "Recording too short. Please speak clearly and try again." }
        else s1
      ({ s2 with phase := Phase.IDLE }, [OrchAction.scheduleStartListening 1500])
    else
      match outcome with
      | STTOutcome.requestFailed msg =>
        ({ s1 with
            error := some ("Speech recognition failed: " ++ msg ++ ". Click mic to retry.")
            phase := Phase.IDLE },
         [OrchAction.uploadSTT blobSize])
      | STTOutcome.ok r =>
        if r.success && jsTruthy r.transcript then
          let t := jsTrim (r.transcript.getD "")
          let s2 := { s1 with transcript := t }
          if t.length > 0 then
            match submitErr with
            | none =>
              ({ s2 with phase := Phase.IDLE },
               [OrchAction.uploadSTT blobSize, OrchAction.submitAnswer t])
            | some m =>
              ({ s2 with
                  phase := Phase.IDLE
                  error := some ("Speech recognition failed: " ++ m ++ ". Click mic to retry.") },
               [OrchAction.uploadSTT blobSize, OrchAction.submitAnswer t])
          else
            ({ s2 with
                error := some "No speech detected. Please speak clearly and try again."
                phase := Phase.IDLE },
             [OrchAction.uploadSTT blobSize, OrchAction.scheduleStartListening 1500])
        else
          let m := jsOrStr r.detail (jsOrStr r.errMsg "Could not recognize speech")
          ({ s1 with
              error := some (m ++ ". Please try again.")
              phase := Phase.IDLE },
           [OrchAction.uploadSTT blobSize, OrchAction.scheduleStartListening 1500])

/-- A concrete orchestrator state used in witnesses and counterexamples:
mid-recording on question 1, no guard flags, no pending timers. -/
def sampleState : OrchState :=
  { phase := Phase.RECORDING
    transcript := ""
    error := none
    silenceCountdown := none
    showSkipWarning := false
    hasSpokenCurrentQuestion := true
    hasUserSpokenThisRecording := false
    recordingStartTime := some 1000
    silenceTimer := false
    countdownTimer := false
    isAutoSkipping := false
    currentQuestionId := some 1
    isCountdownActive := false
    isManuallySkipping := false }

/- ======================================================================
   Speech Input Capturer (src/hooks/useVoiceRecorder.ts)
   ====================================================================== -/

/-- Recorder-side state for the stop path of useVoiceRecorder.
`recorderActive` is true exactly when mediaRecorderRef holds a recorder
whose state is "recording"; `pendingStops` counts the setTimeout
callbacks scheduled by stopRecording that have not yet run; the three
counters record MediaRecorder.stop() invocations (each of which fires
one onstop), completion-callback invocations, and cleanup() runs. -/
structure RecorderState where
  recorderActive : Bool
  analysisActive : Bool
  pendingStops : Nat
  onstopCount : Nat
  completionCount : Nat
  cleanupCount : Nat
  isRecording : Bool
  audioLevel : Nat
deriving DecidableEq, Repr

/-- stopRecording of useVoiceRecorder.ts: clears the analysis interval;
if the recorder is actively recording it calls requestData and schedules
a 100 ms timeout that will perform the actual stop; finally resets the
isRecording flag and audio level. -/
def stopRecording (s : RecorderState) : RecorderState :=
  { s with
    analysisActive := false
    pendingStops := s.pendingStops + (if s.recorderActive then 1 else 0)
    isRecording := false
    audioLevel := 0 }

/-- One scheduled stop timeout firing: it re-checks that the recorder is
still in the "recording" state and only then calls stop(); stop()
transitions the recorder out of "recording" and fires onstop, whose
handler builds the blob, invokes the completion callback once, and runs
cleanup (releasing stream, analyser and audio context). -/
def runStopTimeout (s : RecorderState) : RecorderState :=
  if s.pendingStops = 0 then s
  else
    let s1 := { s with pendingStops := s.pendingStops - 1 }
    if s1.recorderActive then
      { s1 with
        recorderActive := false
        onstopCount := s1.onstopCount + 1
        completionCount := s1.completionCount + 1
        cleanupCount := s1.cleanupCount + 1 }
    else s1

/-- Run `n` scheduled stop timeouts in order. -/
def runTimeouts : Nat → RecorderState → RecorderState
  | 0, s => s
  | n + 1, s => runTimeouts n (runStopTimeout s)

/-- A concrete open recording session for witnesses. -/
def sampleRecorder : RecorderState :=
  { recorderActive := true
    analysisActive := true
    pendingStops := 0
    onstopCount := 0
    completionCount := 0
    cleanupCount := 0
    isRecording := true
    audioLevel := 40 }

/-- One normalized time-domain sample of the isSilent routine of
useVoiceRecorder.ts: `(dataArray[i] - 128) / 128` with the byte taken
from getByteTimeDomainData. -/
noncomputable def normalizedSample (b : Nat) : ℝ := ((b : ℝ) - 128) / 128

/-- Sum of squared normalized samples accumulated by the isSilent loop. -/
noncomputable def sumSquares (samples : List Nat) : ℝ :=
  (samples.map (fun b => normalizedSample b * normalizedSample b)).sum

/-- RMS of the normalized time-domain samples. -/
noncomputable def rms (samples : List Nat) : ℝ :=
  Real.sqrt (sumSquares samples / samples.length)

/-- Decibel estimate of isSilent: `20 * Math.log10(rms + 0.0001)`. -/
noncomputable def decibel (samples : List Nat) : ℝ :=
  20 * Real.logb 10 (rms samples + 0.0001)

/-- The SILENCE_THRESHOLD constant of useVoiceRecorder.ts (dB). -/
def SILENCE_THRESHOLD : ℝ := -45

/-- isSilent of useVoiceRecorder.ts on a buffer of time-domain bytes. -/
def isSilent (samples : List Nat) : Prop :=
  decibel samples < SILENCE_THRESHOLD

/- ======================================================================
   Speech Output Driver (src/hooks/useTextToSpeech.ts)
   ====================================================================== -/

/-- A platform voice as consulted by selectBestVoice: its name and BCP-47
language tag. -/
structure Voice where
  name : String
  lang : String
deriving DecidableEq, Repr

/-- The PREFERRED_VOICES ranked list of useTextToSpeech.ts. -/
def PREFERRED_VOICES : List String :=
  ["Google US English",
   "Microsoft David",
   "Microsoft Zira",
   "Samantha",
   "Alex",
   "Google UK English Female",
   "Google UK English Male"]

/-- JS `hay.includes(pat)`: substring containment. -/
def strContains (hay pat : String) : Bool :=
  hay.toList.tails.any (fun t => pat.toList.isPrefixOf t)

/-- The preference loop of selectBestVoice: for each preferred name in
rank order, the first voice whose name contains it and whose language
tag starts with "en". -/
def findPreferred : List String → List Voice → Option Voice
  | [], _ => none
  | p :: ps, voices =>
    match voices.find? (fun v => strContains v.name p && v.lang.startsWith "en") with
    | some v => some v
    | none => findPreferred ps voices

/-- selectBestVoice of useTextToSpeech.ts: empty list gives null;
otherwise the preference loop, else the first voice with an "en"
language tag, else the first voice. -/
def selectBestVoice (voices : List Voice) : Option Voice :=
  match voices with
  | [] => none
  | v0 :: rest =>
    match findPreferred PREFERRED_VOICES (v0 :: rest) with
    | some v => some v
    | none =>
      match (v0 :: rest).find? (fun v => v.lang.startsWith "en") with
      | some v => some v
      | none => some v0

/-- The specification of voice selection, written from the spec text:
walk the fixed ranked preferred-name list in order, returning the first
voice whose name contains the preferred string and whose language tag
starts with the target language; otherwise the first voice whose
language tag starts with the target language; otherwise the first
available voice; and none for an empty list. -/
def selectVoiceSpec (voices : List Voice) : Option Voice :=
  Option.orElse
    (PREFERRED_VOICES.findSome? (fun p =>
      voices.find? (fun v => strContains v.name p && v.lang.startsWith "en")))
    (fun _ => Option.orElse
      (voices.find? (fun v => v.lang.startsWith "en"))
      (fun _ => voices.head?))

/-- Driver state visible to a speak call: whether an utterance is
playing and the stored error message. -/
structure TTSState where
  isSpeaking : Bool
  error : Option String
deriving DecidableEq, Repr

/-- Engine-level actions a speak call performs, in order. -/
inductive TTSAction
  | cancel
  | startUtterance (text : String)
deriving DecidableEq, Repr

/-- Result of a speak call: post-state, engine actions in order, and the
onError callback invocations made synchronously by the call itself. -/
structure SpeakResult where
  state : TTSState
  actions : List TTSAction
  errorReports : List String
deriving DecidableEq, Repr

/-- speak of useTextToSpeech.ts.  `supported` models the
`window.speechSynthesis` presence check.  Unsupported: store and report
an error, touch nothing else.  Empty trimmed text: return with only a
console warning.  Otherwise: cancel any ongoing speech, then hand the
configured utterance to the engine (isSpeaking is only set later by the
utterance onstart handler). -/
def speak (supported : Bool) (st : TTSState) (text : String) : SpeakResult :=
  if !supported then
    { state := { st with error := some "TTS not supported in this browser" }
      actions := []
      errorReports := ["TTS not supported in this browser"] }
  else if (jsTrim text).length = 0 then
    { state := st, actions := [], errorReports := [] }
  else
    { state := st
      actions := [TTSAction.cancel, TTSAction.startUtterance text]
      errorReports := [] }

/-- Lifecycle events the platform delivers to one utterance. -/
inductive UttEvent
  | startEv
  | endEv
  | errEv (kind : String)
  | pauseEv
deriving DecidableEq, Repr

/-- Consumer callbacks forwarded by the utterance handlers. -/
inductive TTSCallback
  | onStartCb
  | onEndCb
  | onErrorCb (msg : String)
deriving DecidableEq, Repr

/-- The handlers speak installs on its utterance (using the final
onend assignment, which also clears the keep-alive interval): onstart
forwards onStart, onend forwards onEnd, onerror forwards onError except
for a cancellation-induced "interrupted" error, which is swallowed;
onpause only schedules a defensive resume. -/
def utteranceHandlers : UttEvent → List TTSCallback
  | UttEvent.startEv => [TTSCallback.onStartCb]
  | UttEvent.endEv => [TTSCallback.onEndCb]
  | UttEvent.errEv kind =>
    if kind == "interrupted" then []
    else [TTSCallback.onErrorCb ("Speech error: " ++ kind)]
  | UttEvent.pauseEv => []

/-- All callbacks emitted while processing a platform event sequence. -/
def emitted : List UttEvent → List TTSCallback
  | [] => []
  | e :: es => utteranceHandlers e ++ emitted es

/-- Whether a platform event starts playback. -/
def isStartEv : UttEvent → Bool
  | UttEvent.startEv => true
  | _ => false

/-- Whether a platform event terminates the utterance (end or error). -/
def isTerminalEv : UttEvent → Bool
  | UttEvent.endEv => true
  | UttEvent.errEv _ => true
  | _ => false

/-- Whether a forwarded callback is onStart. -/
def isStartCb : TTSCallback → Bool
  | TTSCallback.onStartCb => true
  | _ => false

/-- Whether a forwarded callback is onEnd or onError. -/
def isEndOrErrorCb : TTSCallback → Bool
  | TTSCallback.onEndCb => true
  | TTSCallback.onErrorCb _ => true
  | _ => false

/- ======================================================================
   Theorems
   ====================================================================== -/

/-- Shared guard lemma: with either skip flag set, the completion
handler returns the state unchanged and performs no action. -/
theorem hrc_guard_noop
    (s : OrchState) (blobSize : Nat) (outcome : STTOutcome) (submitErr : Option String)
    (h : s.isAutoSkipping = true ∨ s.isManuallySkipping = true) :
    handleRecordingComplete s blobSize outcome submitErr = (s, []) := by
  rcases h with h | h <;> simp [handleRecordingComplete, h]

/-- C1: if either the auto-skipping flag or the manually-skipping flag is
set when the capture-completion handler runs, the handler discards the
completed audio blob entirely: it makes no transcription upload, no
answer submission, and no phase, transcript, or error change — for every
blob and every flag combination where at least one flag is set. -/
theorem handleRecordingComplete_skip_guard
    (s : OrchState) (blobSize : Nat) (outcome : STTOutcome) (submitErr : Option String)
    (h : s.isAutoSkipping = true ∨ s.isManuallySkipping = true) :
    handleRecordingComplete s blobSize outcome submitErr = (s, []) :=
  hrc_guard_noop s blobSize outcome submitErr h

theorem handleRecordingComplete_skip_guard_witness :
    (({ sampleState with isAutoSkipping := true } : OrchState).isAutoSkipping = true ∨
      ({ sampleState with isAutoSkipping := true } : OrchState).isManuallySkipping = true) ∧
    handleRecordingComplete { sampleState with isAutoSkipping := true } 4096
      (STTOutcome.ok { success := true, transcript := some "hello", detail := none, errMsg := none })
      none = ({ sampleState with isAutoSkipping := true }, []) :=
  ⟨Or.inl (by decide),
   handleRecordingComplete_skip_guard _ 4096
     (STTOutcome.ok { success := true, transcript := some "hello", detail := none, errMsg := none })
     none (Or.inl (by decide))⟩

/-- C2: on every change of the active question identity the orchestrator
unconditionally resets all per-turn flags — spoken-flag, user-has-spoken
flag, recording start time, auto-skipping, manually-skipping,
countdown-active — cancels any pending silence and countdown timer, and
clears the visible countdown UI. -/
theorem questionChange_resets_turn_state
    (s : OrchState) (qid : Nat) (h : s.currentQuestionId ≠ some qid) :
    (questionChangeEffect s (some qid)).hasSpokenCurrentQuestion = false ∧
    (questionChangeEffect s (some qid)).hasUserSpokenThisRecording = false ∧
    (questionChangeEffect s (some qid)).recordingStartTime = none ∧
    (questionChangeEffect s (some qid)).isAutoSkipping = false ∧
    (questionChangeEffect s (some qid)).isManuallySkipping = false ∧
    (questionChangeEffect s (some qid)).isCountdownActive = false ∧
    (questionChangeEffect s (some qid)).silenceTimer = false ∧
    (questionChangeEffect s (some qid)).countdownTimer = false ∧
    (questionChangeEffect s (some qid)).silenceCountdown = none ∧
    (questionChangeEffect s (some qid)).showSkipWarning = false ∧
    (questionChangeEffect s (some qid)).currentQuestionId = some qid := by
  simp [questionChangeEffect, h]

theorem questionChange_resets_turn_state_witness :
    sampleState.currentQuestionId ≠ some 2 ∧
    ((questionChangeEffect sampleState (some 2)).hasSpokenCurrentQuestion = false ∧
     (questionChangeEffect sampleState (some 2)).hasUserSpokenThisRecording = false ∧
     (questionChangeEffect sampleState (some 2)).recordingStartTime = none ∧
     (questionChangeEffect sampleState (some 2)).isAutoSkipping = false ∧
     (questionChangeEffect sampleState (some 2)).isManuallySkipping = false ∧
     (questionChangeEffect sampleState (some 2)).isCountdownActive = false ∧
     (questionChangeEffect sampleState (some 2)).silenceTimer = false ∧
     (questionChangeEffect sampleState (some 2)).countdownTimer = false ∧
     (questionChangeEffect sampleState (some 2)).silenceCountdown = none ∧
     (questionChangeEffect sampleState (some 2)).showSkipWarning = false ∧
     (questionChangeEffect sampleState (some 2)).currentQuestionId = some 2) :=
  ⟨by decide, questionChange_resets_turn_state sampleState 2 (by decide)⟩

/-- C3: when the skip countdown reaches zero, the auto-skip fires exactly
once: the zero tick stops the recorder and schedules exactly one skip
call after a 200 ms delay, clears both watchdog timers, leaves the
auto-skipping idempotency flag set (so the in-flight capture completion
is discarded), and any re-entry into handleAutoSkip is a no-op. -/
theorem countdown_zero_auto_skip_once (s : OrchState) (h : s.isAutoSkipping = false) :
    (countdownZeroTick s).2 = [OrchAction.stopRecorder, OrchAction.scheduleSkip 200] ∧
    (countdownZeroTick s).1.isAutoSkipping = true ∧
    (countdownZeroTick s).1.silenceTimer = false ∧
    (countdownZeroTick s).1.countdownTimer = false ∧
    handleAutoSkip (countdownZeroTick s).1 = ((countdownZeroTick s).1, []) ∧
    (∀ (blobSize : Nat) (outcome : STTOutcome) (submitErr : Option String),
      handleRecordingComplete (countdownZeroTick s).1 blobSize outcome submitErr =
        ((countdownZeroTick s).1, [])) := by
  refine ⟨?_, ?_, ?_, ?_, ?_, ?_⟩
  · simp [countdownZeroTick, handleAutoSkip, h, clearSilenceTimers]
  · simp [countdownZeroTick, handleAutoSkip, h, clearSilenceTimers]
  · simp [countdownZeroTick, handleAutoSkip, h, clearSilenceTimers]
  · simp [countdownZeroTick, handleAutoSkip, h, clearSilenceTimers]
  · have hset : (countdownZeroTick s).1.isAutoSkipping = true := by
      simp [countdownZeroTick, handleAutoSkip, h, clearSilenceTimers]
    simp [handleAutoSkip, hset]
  · intro blobSize outcome submitErr
    have hset : (countdownZeroTick s).1.isAutoSkipping = true := by
      simp [countdownZeroTick, handleAutoSkip, h, clearSilenceTimers]
    exact hrc_guard_noop _ _ _ _ (Or.inl hset)

theorem countdown_zero_auto_skip_once_witness :
    sampleState.isAutoSkipping = false ∧
    ((countdownZeroTick sampleState).2 =
        [OrchAction.stopRecorder, OrchAction.scheduleSkip 200] ∧
     (countdownZeroTick sampleState).1.isAutoSkipping = true ∧
     (countdownZeroTick sampleState).1.silenceTimer = false ∧
     (countdownZeroTick sampleState).1.countdownTimer = false ∧
     handleAutoSkip (countdownZeroTick sampleState).1 =
        ((countdownZeroTick sampleState).1, []) ∧
     (∀ (blobSize : Nat) (outcome : STTOutcome) (submitErr : Option String),
       handleRecordingComplete (countdownZeroTick sampleState).1 blobSize outcome submitErr =
         ((countdownZeroTick sampleState).1, []))) :=
  ⟨by decide, countdown_zero_auto_skip_once sampleState (by decide)⟩

/-- C10: every entry into the RECORDING phase via startListening clears
the auto-skipping flag and the user-has-spoken flag, cancels both
watchdog timers, clears the countdown-active flag and the countdown UI,
and sets a fresh recording start time, so no watchdog or auto-skip state
from a previous recording of the same question survives. -/
theorem startListening_resets_watchdog_state (s : OrchState) (now : Nat) :
    (startListening s now).1.isAutoSkipping = false ∧
    (startListening s now).1.hasUserSpokenThisRecording = false ∧
    (startListening s now).1.recordingStartTime = some now ∧
    (startListening s now).1.silenceTimer = false ∧
    (startListening s now).1.countdownTimer = false ∧
    (startListening s now).1.isCountdownActive = false ∧
    (startListening s now).1.silenceCountdown = none ∧
    (startListening s now).1.showSkipWarning = false ∧
    (startListening s now).1.phase = Phase.RECORDING ∧
    (startListening s now).2 = [OrchAction.startRecorder] := by
  simp [startListening, clearSilenceTimers]

/-- C4 counterexample: with no skip in flight and a 100-byte blob (too
small to be valid audio), the handler surfaces a user-visible error
message, contrary to the claim that it retries rather than surfacing an
error. -/
theorem small_blob_sets_error_message :
    (handleRecordingComplete sampleState 100
        (STTOutcome.ok { success := true, transcript := some "x", detail := none, errMsg := none })
        none).1.error =
      some "Recording too short. Please speak clearly and try again." := by
  decide

/-- C4 (amended): for every completed capture while no skip is in flight,
an empty transcript or a too-small blob leads to no answer-submission
call and an automatic route back to recording after the fixed 1500 ms
delay, while an inline error message is also set. -/
theorem empty_result_auto_retry (s : OrchState) (blobSize : Nat)
    (outcome : STTOutcome) (submitErr : Option String) (r : STTResult)
    (hA : s.isAutoSkipping = false) (hM : s.isManuallySkipping = false) :
    (blobSize < 500 →
      (handleRecordingComplete s blobSize outcome submitErr).2 =
        [OrchAction.scheduleStartListening 1500] ∧
      (handleRecordingComplete s blobSize outcome submitErr).1.error =
        some "Recording too short. Please speak clearly and try again.") ∧
    (¬ blobSize < 500 → outcome = STTOutcome.ok r → r.success = true →
      jsTruthy r.transcript = true → jsTrim (r.transcript.getD "") = "" →
      (handleRecordingComplete s blobSize outcome submitErr).2 =
        [OrchAction.uploadSTT blobSize, OrchAction.scheduleStartListening 1500] ∧
      (handleRecordingComplete s blobSize outcome submitErr).1.error =
        some "No speech detected. Please speak clearly and try again.") := by
  constructor
  · intro hb
    simp [handleRecordingComplete, hA, hM, hb]
  · intro hb hoc hs ht htr
    subst hoc
    simp [handleRecordingComplete, hA, hM, hb, hs, ht, htr]

theorem empty_result_auto_retry_witness :
    sampleState.isAutoSkipping = false ∧ sampleState.isManuallySkipping = false ∧
    ((100 < 500 →
      (handleRecordingComplete sampleState 100
          (STTOutcome.ok { success := true, transcript := some "  ", detail := none, errMsg := none })
          none).2 = [OrchAction.scheduleStartListening 1500] ∧
      (handleRecordingComplete sampleState 100
          (STTOutcome.ok { success := true, transcript := some "  ", detail := none, errMsg := none })
          none).1.error =
        some "Recording too short. Please speak clearly and try again.") ∧
     (¬ 100 < 500 →
      STTOutcome.ok { success := true, transcript := some "  ", detail := none, errMsg := none } =
        STTOutcome.ok { success := true, transcript := some "  ", detail := none, errMsg := none } →
      ({ success := true, transcript := some "  ", detail := none, errMsg := none } : STTResult).success = true →
      jsTruthy ({ success := true, transcript := some "  ", detail := none, errMsg := none } : STTResult).transcript = true →
      jsTrim (({ success := true, transcript := some "  ", detail := none, errMsg := none } : STTResult).transcript.getD "") = "" →
      (handleRecordingComplete sampleState 100
          (STTOutcome.ok { success := true, transcript := some "  ", detail := none, errMsg := none })
          none).2 =
        [OrchAction.uploadSTT 100, OrchAction.scheduleStartListening 1500] ∧
      (handleRecordingComplete sampleState 100
          (STTOutcome.ok { success := true, transcript := some "  ", detail := none, errMsg := none })
          none).1.error =
        some "No speech detected. Please speak clearly and try again.")) :=
  ⟨by decide, by decide,
   empty_result_auto_retry sampleState 100
     (STTOutcome.ok { success := true, transcript := some "  ", detail := none, errMsg := none })
     none { success := true, transcript := some "  ", detail := none, errMsg := none }
     (by decide) (by decide)⟩

/-- C6: two stopRecording calls in a row on one open Recording Session
produce exactly one stop (hence one onstop), one completion callback and
one cleanup once the scheduled stop timeouts have run; and stopRecording
with no open recording changes neither the recorder nor its resource
counters. -/
theorem stopRecording_idempotent (s : RecorderState)
    (h : s.recorderActive = true) (hp : s.pendingStops = 0) :
    (runTimeouts (stopRecording (stopRecording s)).pendingStops
        (stopRecording (stopRecording s))).onstopCount = s.onstopCount + 1 ∧
    (runTimeouts (stopRecording (stopRecording s)).pendingStops
        (stopRecording (stopRecording s))).completionCount = s.completionCount + 1 ∧
    (runTimeouts (stopRecording (stopRecording s)).pendingStops
        (stopRecording (stopRecording s))).cleanupCount = s.cleanupCount + 1 ∧
    (runTimeouts (stopRecording (stopRecording s)).pendingStops
        (stopRecording (stopRecording s))).pendingStops = 0 ∧
    (runTimeouts (stopRecording (stopRecording s)).pendingStops
        (stopRecording (stopRecording s))).recorderActive = false ∧
    (∀ s2 : RecorderState, s2.recorderActive = false →
      (stopRecording s2).recorderActive = false ∧
      (stopRecording s2).pendingStops = s2.pendingStops ∧
      (stopRecording s2).onstopCount = s2.onstopCount ∧
      (stopRecording s2).completionCount = s2.completionCount ∧
      (stopRecording s2).cleanupCount = s2.cleanupCount) := by
  refine ⟨?_, ?_, ?_, ?_, ?_, ?_⟩
  all_goals first
  | (intro s2 h2; simp [stopRecording, h2])
  | simp [stopRecording, h, hp, runTimeouts, runStopTimeout]

theorem stopRecording_idempotent_witness :
    sampleRecorder.recorderActive = true ∧ sampleRecorder.pendingStops = 0 ∧
    ((runTimeouts (stopRecording (stopRecording sampleRecorder)).pendingStops
        (stopRecording (stopRecording sampleRecorder))).onstopCount =
      sampleRecorder.onstopCount + 1 ∧
     (runTimeouts (stopRecording (stopRecording sampleRecorder)).pendingStops
        (stopRecording (stopRecording sampleRecorder))).completionCount =
      sampleRecorder.completionCount + 1 ∧
     (runTimeouts (stopRecording (stopRecording sampleRecorder)).pendingStops
        (stopRecording (stopRecording sampleRecorder))).cleanupCount =
      sampleRecorder.cleanupCount + 1 ∧
     (runTimeouts (stopRecording (stopRecording sampleRecorder)).pendingStops
        (stopRecording (stopRecording sampleRecorder))).pendingStops = 0 ∧
     (runTimeouts (stopRecording (stopRecording sampleRecorder)).pendingStops
        (stopRecording (stopRecording sampleRecorder))).recorderActive = false ∧
     (∀ s2 : RecorderState, s2.recorderActive = false →
       (stopRecording s2).recorderActive = false ∧
       (stopRecording s2).pendingStops = s2.pendingStops ∧
       (stopRecording s2).onstopCount = s2.onstopCount ∧
       (stopRecording s2).completionCount = s2.completionCount ∧
       (stopRecording s2).cleanupCount = s2.cleanupCount)) :=
  ⟨by decide, by decide, stopRecording_idempotent sampleRecorder (by decide) (by decide)⟩

/-- C9 counterexample: speak with supported synthesis and a text that is
empty after trimming performs no operation but also reports no error,
contrary to the claim that it reports an error in that case. -/
theorem speak_empty_text_no_error_report :
    (speak true { isSpeaking := false, error := none } " ").errorReports = [] ∧
    (speak true { isSpeaking := false, error := none } " ").state =
      { isSpeaking := false, error := none } ∧
    (speak true { isSpeaking := false, error := none } " ").actions = [] := by
  decide

/-- C9 (amended): speak fails fast — starting no utterance and leaving
the speaking flag unchanged — whenever synthesis is unsupported or the
text is empty after trimming; it reports an error in the unsupported
case, while empty text is ignored silently with no state change. -/
theorem speak_fails_fast (st : TTSState) (text : String) :
    ((speak false st text).actions = [] ∧
     (speak false st text).state.isSpeaking = st.isSpeaking ∧
     (speak false st text).state.error = some "TTS not supported in this browser" ∧
     (speak false st text).errorReports = ["TTS not supported in this browser"]) ∧
    ((jsTrim text).length = 0 →
      speak true st text = { state := st, actions := [], errorReports := [] }) := by
  constructor
  · simp [speak]
  · intro h
    simp [speak, h]

theorem speak_fails_fast_witness :
    (jsTrim " ").length = 0 ∧
    speak true { isSpeaking := false, error := none } " " =
      { state := { isSpeaking := false, error := none }, actions := [], errorReports := [] } :=
  ⟨by decide, (speak_fails_fast { isSpeaking := false, error := none } " ").2 (by decide)⟩

/-- The preference loop of selectBestVoice agrees with a first-some walk
over the ranked preferred-name list. -/
theorem findPreferred_eq_findSome (ps : List String) (voices : List Voice) :
    findPreferred ps voices =
      ps.findSome? (fun p =>
        voices.find? (fun v => strContains v.name p && v.lang.startsWith "en")) := by
  induction ps with
  | nil => rfl
  | cons p ps ih =>
    cases h : voices.find? (fun v => strContains v.name p && v.lang.startsWith "en") with
    | none => simp [findPreferred, List.findSome?_cons, h, ih]
    | some v => simp [findPreferred, List.findSome?_cons, h]

/-- C8: voice selection is deterministic preference-ordered matching —
selectBestVoice coincides with the specification cascade (first ranked
preferred name whose voice matches name and language, else first voice
with the target language tag, else the first voice, else none), and an
empty list yields none. -/
theorem selectBestVoice_matches_spec (voices : List Voice) :
    selectBestVoice voices = selectVoiceSpec voices ∧
    selectBestVoice [] = (none : Option Voice) := by
  refine ⟨?_, rfl⟩
  cases voices with
  | nil => rfl
  | cons v0 rest =>
    show (match findPreferred PREFERRED_VOICES (v0 :: rest) with
      | some v => some v
      | none =>
        match (v0 :: rest).find? (fun v => v.lang.startsWith "en") with
        | some v => some v
        | none => some v0) = selectVoiceSpec (v0 :: rest)
    rw [findPreferred_eq_findSome]
    unfold selectVoiceSpec
    cases h1 : List.findSome? (fun p =>
        (v0 :: rest).find? (fun v => strContains v.name p && v.lang.startsWith "en"))
        PREFERRED_VOICES with
    | some v => simp [Option.orElse]
    | none =>
      cases h2 : (v0 :: rest).find? (fun v => v.lang.startsWith "en") with
      | some v => simp [Option.orElse]
      | none => simp [Option.orElse]

/-- Each platform start event forwards exactly one onStart callback. -/
theorem emitted_countP_start (evs : List UttEvent) :
    (emitted evs).countP isStartCb = evs.countP isStartEv := by
  induction evs with
  | nil => rfl
  | cons e es ih =>
    cases e with
    | startEv =>
      simp [emitted, utteranceHandlers, List.countP_cons, List.countP_append,
        isStartCb, isStartEv, ih]
    | endEv =>
      simp [emitted, utteranceHandlers, List.countP_cons, List.countP_append,
        isStartCb, isStartEv, ih]
    | errEv kind =>
      by_cases hk : kind == "interrupted" <;>
        simp [emitted, utteranceHandlers, hk, List.countP_cons, List.countP_append,
          isStartCb, isStartEv, ih]
    | pauseEv =>
      simp [emitted, utteranceHandlers, List.countP_cons, List.countP_append,
        isStartCb, isStartEv, ih]

/-- The utterance handlers forward at most one onEnd or onError callback
per terminal platform event. -/
theorem emitted_countP_terminal (evs : List UttEvent) :
    (emitted evs).countP isEndOrErrorCb ≤ evs.countP isTerminalEv := by
  induction evs with
  | nil => exact Nat.le_refl 0
  | cons e es ih =>
    cases e with
    | startEv =>
      simpa [emitted, utteranceHandlers, List.countP_cons, List.countP_append,
        isEndOrErrorCb, isTerminalEv] using ih
    | endEv =>
      have h := ih
      simp [emitted, utteranceHandlers, List.countP_cons, List.countP_append,
        isEndOrErrorCb, isTerminalEv]
      omega
    | errEv kind =>
      have h := ih
      by_cases hk : kind == "interrupted" <;>
        simp [emitted, utteranceHandlers, hk, List.countP_cons, List.countP_append,
          isEndOrErrorCb, isTerminalEv] <;>
        omega
    | pauseEv =>
      simpa [emitted, utteranceHandlers, List.countP_cons, List.countP_append,
        isEndOrErrorCb, isTerminalEv] using ih

/-- C5: a speak call with supported synthesis and non-empty trimmed text
cancels the in-flight utterance before the new one starts (the engine
action list is exactly cancel followed by one start); for any platform
delivery with one start event and at most one terminal event, the
handlers forward exactly one onStart and at most one onEnd/onError; and
a cancellation-induced interrupted error is swallowed. -/
theorem speak_single_utterance_events (st : TTSState) (text : String)
    (evs : List UttEvent)
    (ht : (jsTrim text).length ≠ 0)
    (h1 : evs.countP isStartEv = 1)
    (h2 : evs.countP isTerminalEv ≤ 1) :
    (speak true st text).actions = [TTSAction.cancel, TTSAction.startUtterance text] ∧
    (emitted evs).countP isStartCb = 1 ∧
    (emitted evs).countP isEndOrErrorCb ≤ 1 ∧
    utteranceHandlers (UttEvent.errEv "interrupted") = [] := by
  refine ⟨?_, ?_, ?_, rfl⟩
  · simp [speak, ht]
  · rw [emitted_countP_start]
    exact h1
  · exact Nat.le_trans (emitted_countP_terminal evs) h2

theorem speak_single_utterance_events_witness :
    (jsTrim "Hello").length ≠ 0 ∧
    ([UttEvent.startEv, UttEvent.endEv].countP isStartEv = 1) ∧
    ([UttEvent.startEv, UttEvent.endEv].countP isTerminalEv ≤ 1) ∧
    ((speak true { isSpeaking := false, error := none } "Hello").actions =
        [TTSAction.cancel, TTSAction.startUtterance "Hello"] ∧
      (emitted [UttEvent.startEv, UttEvent.endEv]).countP isStartCb = 1 ∧
      (emitted [UttEvent.startEv, UttEvent.endEv]).countP isEndOrErrorCb ≤ 1 ∧
      utteranceHandlers (UttEvent.errEv "interrupted") = []) :=
  ⟨by decide, by decide, by decide,
   speak_single_utterance_events { isSpeaking := false, error := none } "Hello"
     [UttEvent.startEv, UttEvent.endEv] (by decide) (by decide) (by decide)⟩

/-- On an all-midpoint (128) buffer every normalized sample is zero, so the RMS is zero. -/
theorem rms_replicate_128 (n : Nat) : rms (List.replicate n 128) = 0 := by
  have hs : sumSquares (List.replicate n 128) = 0 := by
    simp [sumSquares, normalizedSample, List.map_replicate]
  simp [rms, hs]

/-- On an all-255 buffer every normalized sample is 127/128, so the RMS is 127/128. -/
theorem rms_replicate_255 (n : Nat) (hn : 0 < n) :
    rms (List.replicate n 255) = 127 / 128 := by
  have hq : normalizedSample 255 = 127 / 128 := by
    simp [normalizedSample]
    norm_num
  have hs : sumSquares (List.replicate n 255) = n * (127 / 128 * (127 / 128)) := by
    simp [sumSquares, List.map_replicate, hq, List.sum_replicate, nsmul_eq_mul]
  have hn2 : (n : ℝ) ≠ 0 := Nat.cast_ne_zero.mpr (Nat.not_eq_zero_of_lt hn)
  rw [rms, hs, List.length_replicate]
  rw [mul_comm, mul_div_assoc, div_self hn2, mul_one]
  rw [Real.sqrt_mul_self (by norm_num : (0:ℝ) ≤ 127 / 128)]

/-- The epsilon alone sits at exactly -4 decades. -/
theorem logb_ten_of_eps : Real.logb 10 ((0 : ℝ) + 0.0001) = -4 := by
  have h : ((0 : ℝ) + 0.0001) = (10 : ℝ) ^ (-4 : ℝ) := by
    rw [Real.rpow_neg (by norm_num : (0:ℝ) ≤ 10)]
    rw [show ((4:ℝ)) = ((4:ℕ) : ℝ) by norm_num, Real.rpow_natCast]
    norm_num
  rw [h, Real.logb_rpow (by norm_num : (0:ℝ) < 10) (by norm_num : (10:ℝ) ≠ 1)]

/-- One tenth sits at exactly -1 decade. -/
theorem logb_ten_tenth : Real.logb 10 ((1 : ℝ) / 10) = -1 := by
  have h : ((1 : ℝ) / 10) = (10 : ℝ) ^ (-1 : ℝ) := by
    rw [Real.rpow_neg (by norm_num : (0:ℝ) ≤ 10)]
    norm_num [Real.rpow_one]
  rw [h, Real.logb_rpow (by norm_num : (0:ℝ) < 10) (by norm_num : (10:ℝ) ≠ 1)]

/-- C7: the silence predicate computes the decibel level as 20 times the base-10 log of the RMS of the normalized time-domain samples plus a small epsilon, and reports silent exactly when that value is below the fixed -45 dB threshold; every buffer of bytes at the 128 midpoint is silent, and every buffer of full-scale (255) bytes is not. -/
theorem isSilent_db_threshold (samples : List Nat) (n : Nat) (hn : 0 < n) :
    (isSilent samples ↔ decibel samples < -45) ∧
    decibel samples = 20 * Real.logb 10 (rms samples + 0.0001) ∧
    isSilent (List.replicate n 128) ∧
    ¬ isSilent (List.replicate n 255) := by
  refine ⟨Iff.rfl, rfl, ?_, ?_⟩
  · show decibel (List.replicate n 128) < SILENCE_THRESHOLD
    show 20 * Real.logb 10 (rms (List.replicate n 128) + 0.0001) < SILENCE_THRESHOLD
    rw [rms_replicate_128, logb_ten_of_eps]
    norm_num [SILENCE_THRESHOLD]
  · intro h
    have h2 : 20 * Real.logb 10 (rms (List.replicate n 255) + 0.0001) < SILENCE_THRESHOLD := h
    rw [rms_replicate_255 n hn] at h2
    have hmono : Real.logb 10 ((1 : ℝ) / 10) ≤ Real.logb 10 ((127 : ℝ) / 128 + 0.0001) :=
      Real.logb_le_logb_of_le (by norm_num : (1:ℝ) < 10)
        (by norm_num : (0:ℝ) < 1 / 10) (by norm_num)
    rw [logb_ten_tenth] at hmono
    have hT : SILENCE_THRESHOLD = -45 := rfl
    rw [hT] at h2
    linarith
theorem isSilent_db_threshold_witness :
    0 < 4 ∧
    ((isSilent [128, 128] ↔ decibel [128, 128] < -45) ∧
     decibel [128, 128] = 20 * Real.logb 10 (rms [128, 128] + 0.0001) ∧
     isSilent (List.replicate 4 128) ∧
     ¬ isSilent (List.replicate 4 255)) :=
  ⟨by norm_num, isSilent_db_threshold [128, 128] 4 (by norm_num)⟩
